import Mathlib

/-!
# SessionAuthority (AuthContext) — shallow embedding

A shallow embedding of the authentication state-synchronization context in
`src/lib/auth/AuthContext.tsx` (the defensive variant with request queueing,
a not-found retry, and the loading latch, which the specification designates
as the intended contract).

The component's mutable state — React `useState` values plus the `useRef`
guard flags — is modelled by the record `AuthState`.  The asynchronous
operations (`initAuth`, the `onAuthStateChange` callback, `fetchProfile`,
`signOut`, `refreshProfile`, the safety timeout, and the delayed error
clear) become pure state-transition functions.  Backend and Profile Store
responses are passed in explicitly as oracle arguments, so every suspension
point of the source becomes a function argument here.  Triggered follow-up
work (a profile fetch requested by an event handler, the queued replay
scheduled from the `finally` block) is returned as data rather than executed,
so interleavings can be modelled by an explicit small-step scheduler
(`FetchConfig`, `applyStep`).
-/

namespace Auth

/-- Role type `UserRole` from `AuthContext.tsx`: the closed role set. -/
inductive UserRole where
  | super_admin
  | admin
  | kontributor
deriving DecidableEq, Repr

/-- Domain record `Profile` from the `profiles` table (`AuthContext.tsx`). -/
structure Profile where
  id : String
  email : String
  full_name : Option String
  role : UserRole
  avatar_url : Option String
  created_at : String
  updated_at : String
deriving DecidableEq, Repr

/-- The Credential Backend's user principal: the fields this component reads. -/
structure AuthUser where
  id : String
  email : String
deriving DecidableEq, Repr

/-- An opaque session issued by the Credential Backend; `session.user` is the
principal, `access_token` stands for the rest of the opaque bundle. -/
structure Session where
  user : AuthUser
  access_token : String
deriving DecidableEq, Repr

/-- A backend / Profile Store error object; this component only inspects
`error.code` (for the `PGRST116` not-found code). -/
structure StoreError where
  code : String
deriving DecidableEq, Repr

/-- Result of one Profile Store query (`supabase.from('profiles')...single()`). -/
inductive StoreResult where
  | ok (p : Profile)
  | fail (e : StoreError)
deriving DecidableEq, Repr

/-- Result of `supabase.auth.getSession()` inside `initAuth`. -/
inductive SessionResult where
  | ok (s : Option Session)
  | fail (e : StoreError)
deriving DecidableEq, Repr

/-- Events delivered by `supabase.auth.onAuthStateChange`; `other` stands for
the remaining event kinds the callback does not branch on. -/
inductive AuthEvent where
  | SIGNED_IN
  | SIGNED_OUT
  | TOKEN_REFRESHED
  | other (name : String)
deriving DecidableEq, Repr

/-- The component's mutable state: the five `useState` values and the four
`useRef` guard flags of `AuthProvider`. -/
structure AuthState where
  user : Option AuthUser
  profile : Option Profile
  session : Option Session
  loading : Bool
  error : Option StoreError
  isFetching : Bool
  pendingFetch : Option String
  initDone : Bool
  hasSetLoadingFalse : Bool
deriving DecidableEq, Repr

/-- The state at mount: `useState` initial values and `useRef(false)` /
`useRef(null)` initializers. -/
def initialAuthState : AuthState :=
  { user := none
    profile := none
    session := none
    loading := true
    error := none
    isFetching := false
    pendingFetch := none
    initDone := false
    hasSetLoadingFalse := false }

/-- How a call to `fetchProfile` leaves its entry section (lines 266–284):
queued behind an in-flight fetch, skipped as a redundant silent refresh, or
proceeding to the actual store query. -/
inductive FetchEntry where
  | queued
  | skipped
  | proceed
deriving DecidableEq, Repr

/-- Entry section of `fetchProfile(userId, silent)`: if a fetch is already in
flight the id is queued (overwriting any previously queued id) and the call
returns; a silent refresh for the already-loaded profile id returns without
fetching; otherwise the in-flight flag is raised and the fetch proceeds. -/
def fetchEnter (s : AuthState) (userId : String) (silent : Bool) :
    AuthState × FetchEntry :=
  if s.isFetching then
    ({ s with pendingFetch := some userId }, FetchEntry.queued)
  else if silent && s.profile.any (fun p => p.id == userId) then
    (s, FetchEntry.skipped)
  else
    ({ s with isFetching := true }, FetchEntry.proceed)

/-- The `catch` block of `fetchProfile` (lines 348–370) applied to a thrown
error `e`: on `PGRST116` with no previously held profile, the profile is
(re)set to `none` and the error recorded; for every other failure the held
profile is kept, the error recorded, and a timer to clear the error is
scheduled.  Returns the new state and the delay (in ms) of the scheduled
`setError(null)` timer, if one was scheduled. -/
def fetchCatch (s : AuthState) (e : StoreError) : AuthState × Option Nat :=
  if e.code == "PGRST116" && s.profile == none then
    ({ s with profile := none, error := some e }, none)
  else
    ({ s with error := some e }, some 5000)

/-- Observable outcome of the `try`/`catch` body of `fetchProfile`:
the resulting state, how many Profile Store queries were issued, the delay
waited before a retry query (ms), and the delay of a scheduled error-clear
timer (ms), if any. -/
structure BodyResult where
  state : AuthState
  queries : Nat
  retryDelayMs : Option Nat
  errorClearDelayMs : Option Nat
deriving DecidableEq, Repr

/-- The `try`/`catch` body of `fetchProfile` (lines 286–372), with the first
store response `resp` and the response `retryResp` to the retry query (used
only when the retry is issued).  On success the profile is stored.  On a
`PGRST116` not-found, a non-silent call waits 1000 ms and retries once:
a successful retry stores the profile, otherwise the original error is
thrown into the catch block.  Silent calls and other error codes go to the
catch block directly. -/
def fetchBody (s : AuthState) (silent : Bool)
    (resp retryResp : StoreResult) : BodyResult :=
  match resp with
  | StoreResult.ok p => ⟨{ s with profile := some p }, 1, none, none⟩
  | StoreResult.fail e =>
    if e.code == "PGRST116" then
      if silent then
        let r := fetchCatch s e
        ⟨r.1, 1, none, r.2⟩
      else
        match retryResp with
        | StoreResult.ok p => ⟨{ s with profile := some p }, 2, some 1000, none⟩
        | StoreResult.fail _ =>
          let r := fetchCatch s e
          ⟨r.1, 2, some 1000, r.2⟩
    else
      let r := fetchCatch s e
      ⟨r.1, 1, none, r.2⟩

/-- The `finally` block of `fetchProfile` (lines 373–394): lower the in-flight
flag; latch `loading := false` (once only, guarded by `hasSetLoadingFalse`);
then, if an id was queued while this fetch ran, clear the queue and schedule
exactly one silent replay for that id (returned as the second component). -/
def fetchFinally (s : AuthState) : AuthState × Option String :=
  let s1 := { s with isFetching := false }
  let s2 :=
    if !s1.hasSetLoadingFalse then
      { s1 with loading := false, hasSetLoadingFalse := true, initDone := true }
    else s1
  match s2.pendingFetch with
  | some uid => ({ s2 with pendingFetch := none }, some uid)
  | none => (s2, none)

/-- Observable outcome of one complete `fetchProfile` invocation. -/
structure FetchResult where
  state : AuthState
  queries : Nat
  retryDelayMs : Option Nat
  errorClearDelayMs : Option Nat
  replay : Option String
deriving DecidableEq, Repr

/-- One complete synchronous run of `fetchProfile(userId, silent)` against
store responses `resp` (first query) and `retryResp` (retry query): entry
guard, then — only when the entry proceeds — body and `finally`.  Queued and
skipped calls issue no query and run no `finally` (the early returns at
lines 273 and 281 precede the `try`). -/
def runFetch (s : AuthState) (userId : String) (silent : Bool)
    (resp retryResp : StoreResult) : FetchResult :=
  match fetchEnter s userId silent with
  | (s1, FetchEntry.queued) => ⟨s1, 0, none, none, none⟩
  | (s1, FetchEntry.skipped) => ⟨s1, 0, none, none, none⟩
  | (s1, FetchEntry.proceed) =>
    let b := fetchBody s1 silent resp retryResp
    let f := fetchFinally b.state
    ⟨f.1, b.queries, b.retryDelayMs, b.errorClearDelayMs, f.2⟩

/-- The delayed `setError(null)` scheduled from the catch block (line 365);
the `isMounted` guard it checks is a local constant `{current: true}`. -/
def clearError (s : AuthState) : AuthState :=
  { s with error := none }

/-- The `onAuthStateChange` callback (lines 203–253): events arriving before
initialization completes are dropped; otherwise `session` and `user` are
updated unconditionally, a `SIGNED_IN` with a user requests a profile fetch
(returned as the second component), `TOKEN_REFRESHED` deliberately does not,
and `SIGNED_OUT` clears the profile, sets `loading := false` and resets the
initialization guard. -/
def handleAuthEvent (s : AuthState) (event : AuthEvent)
    (sess : Option Session) : AuthState × Option String :=
  if !s.initDone then (s, none)
  else
    let s1 := { s with session := sess, user := sess.map (fun sn => sn.user) }
    match sess with
    | some sn =>
      match event with
      | AuthEvent.SIGNED_IN => (s1, some sn.user.id)
      | AuthEvent.TOKEN_REFRESHED => (s1, none)
      | AuthEvent.SIGNED_OUT =>
        ({ s1 with profile := none, loading := false, initDone := false }, none)
      | AuthEvent.other _ => (s1, none)
    | none =>
      match event with
      | AuthEvent.SIGNED_OUT =>
        ({ s1 with profile := none, loading := false, initDone := false }, none)
      | _ => (s1, none)

/-- Folding a sequence of delivered auth events over the state (fetch
requests the handler emits are not executed here; pre-initialization events
emit none). -/
def handleEvents (s : AuthState)
    (evs : List (AuthEvent × Option Session)) : AuthState :=
  evs.foldl (fun st ev => (handleAuthEvent st ev.1 ev.2).1) s

/-- Function `signOut` (lines 407–419) against the backend outcome `backendError`:
when the backend reports an error it is thrown (returned) before any state
is touched; on success `user`, `profile`, `session` are cleared and the
`isFetching` and `initDone` flags reset (`pendingFetch`,
`hasSetLoadingFalse`, `loading` and `error` are not touched). -/
def signOut (s : AuthState) (backendError : Option StoreError) :
    AuthState × Option StoreError :=
  match backendError with
  | some e => (s, some e)
  | none =>
    ({ s with user := none, profile := none, session := none,
              isFetching := false, initDone := false }, none)

/-- Function `refreshProfile` (lines 452–457): with a current user, request a
(non-silent) profile fetch for that user's id; with no user, do nothing. -/
def refreshProfile (s : AuthState) : AuthState × Option String :=
  match s.user with
  | some u => (s, some u.id)
  | none => (s, none)

/-- The 10-second safety timeout (lines 142–149): if `loading := false` has
not been latched yet, force it and mark the component initDone. -/
def safetyTimeout (s : AuthState) : AuthState :=
  if !s.hasSetLoadingFalse then
    { s with loading := false, hasSetLoadingFalse := true, initDone := true }
  else s

/-- Function `initAuth` (lines 151–196): a no-op when already initDone; on a
session-query error, or when no session exists, finish with
`loading := false`; with a session, store it and run `fetchProfile` for its
user (non-silently) against the given store responses. -/
def initAuth (s : AuthState) (res : SessionResult)
    (resp retryResp : StoreResult) : AuthState :=
  if s.initDone then s
  else
    match res with
    | SessionResult.fail _ => { s with loading := false, initDone := true }
    | SessionResult.ok sess =>
      let s1 := { s with session := sess, user := sess.map (fun sn => sn.user) }
      match sess with
      | some sn => (runFetch s1 sn.user.id false resp retryResp).state
      | none => { s1 with loading := false, initDone := true }

/-- Predicate `hasPermission` (lines 422–427): false with no profile, otherwise
membership of the profile's role in the required roles. -/
def hasPermission (profile : Option Profile) (requiredRoles : List UserRole) :
    Bool :=
  match profile with
  | none => false
  | some p => requiredRoles.contains p.role

/-- Predicate `canEditOwnContent` (lines 445–450): false with no user, otherwise
equality of the user's id with the content's author id. -/
def canEditOwnContent (user : Option AuthUser) (authorId : String) : Bool :=
  match user with
  | none => false
  | some u => u.id == authorId

/-! ## Small-step scheduler

The source runs on a single event loop: a `fetchProfile` invocation executes
its entry section synchronously, then suspends on the store query; its body
and `finally` run when the response arrives.  A configuration pairs the
component state with the list of profile fetches currently awaiting a store
response; steps are the synchronous sections of the source. -/

/-- A profile fetch awaiting its Profile Store response. -/
structure FetchTask where
  userId : String
  silent : Bool
deriving DecidableEq, Repr

/-- Component state together with the profile fetches in flight. -/
structure FetchConfig where
  st : AuthState
  inFlight : List FetchTask
deriving DecidableEq, Repr

/-- Invoking `fetchProfile(uid, silent)` up to its first suspension point:
the entry section runs synchronously, and only a `proceed` outcome puts a
fetch in flight. -/
def stepCall (c : FetchConfig) (uid : String) (silent : Bool) : FetchConfig :=
  match fetchEnter c.st uid silent with
  | (s1, FetchEntry.proceed) => ⟨s1, c.inFlight ++ [⟨uid, silent⟩]⟩
  | (s1, _) => ⟨s1, c.inFlight⟩

/-- The store response for the oldest in-flight fetch arrives: run the fetch's
body and `finally`.  Returns the new configuration and the silent replay
scheduled by the `finally` block (a deferred `fetchProfile(uid, true)` via
`setTimeout(..., 0)`), if any. -/
def stepComplete (c : FetchConfig) (resp retryResp : StoreResult) :
    FetchConfig × Option String :=
  match c.inFlight with
  | [] => (c, none)
  | t :: rest =>
    let b := fetchBody c.st t.silent resp retryResp
    let f := fetchFinally b.state
    (⟨f.1, rest⟩, f.2)

/-- The synchronous sections of the component, as scheduler steps: delivery of
an auth event, invocation of `fetchProfile`, arrival of a store response,
the safety timeout, the delayed error clear, `signOut` (with the backend
outcome), and `refreshProfile` (which invokes `fetchProfile` for the current
user, if any). -/
inductive SysStep where
  | ev (e : AuthEvent) (sess : Option Session)
  | fetchCall (uid : String) (silent : Bool)
  | fetchDone (resp retryResp : StoreResult)
  | timeout
  | clearErr
  | signOutStep (backendError : Option StoreError)
  | refresh
deriving DecidableEq, Repr

/-- Apply one scheduler step to a configuration. -/
def applyStep (c : FetchConfig) : SysStep → FetchConfig
  | SysStep.ev e sess => ⟨(handleAuthEvent c.st e sess).1, c.inFlight⟩
  | SysStep.fetchCall uid silent => stepCall c uid silent
  | SysStep.fetchDone resp retryResp => (stepComplete c resp retryResp).1
  | SysStep.timeout => ⟨safetyTimeout c.st, c.inFlight⟩
  | SysStep.clearErr => ⟨clearError c.st, c.inFlight⟩
  | SysStep.signOutStep e => ⟨(signOut c.st e).1, c.inFlight⟩
  | SysStep.refresh =>
    match c.st.user with
    | some u => stepCall c u.id false
    | none => c

/-- Discriminator for the one scheduler step that bypasses the fetch guard:
`signOut` resets `isFetchingRef` (line 417) without cancelling an
outstanding store query. -/
def SysStep.isSignOut : SysStep → Bool
  | SysStep.signOutStep _ => true
  | _ => false

/-! ## Concrete sample values, used by witnesses and counterexamples -/

/-- A sample principal. -/
def sampleUser : AuthUser := ⟨"user-42", "a@example.com"⟩

/-- A sample session for `sampleUser`. -/
def sampleSession : Session := ⟨sampleUser, "tok-1"⟩

/-- A sample profile for `sampleUser`, with the `admin` role. -/
def sampleProfile : Profile :=
  ⟨"user-42", "a@example.com", none, UserRole.admin, none, "2024-01-01", "2024-01-01"⟩

/-- A second principal, used for superseding fetch requests. -/
def otherUser : AuthUser := ⟨"user-77", "b@example.com"⟩

/-- A non-not-found Profile Store failure (e.g. a network error). -/
def netErr : StoreError := ⟨"NETWORK"⟩

/-- The `PGRST116` not-found error returned by the Profile Store when the
creation trigger has not run yet. -/
def notFoundErr : StoreError := ⟨"PGRST116"⟩

/-- A fully authenticated, settled state: signed in as `sampleUser`, profile
loaded, startup finished. -/
def authedState : AuthState :=
  { user := some sampleUser
    profile := some sampleProfile
    session := some sampleSession
    loading := false
    error := none
    isFetching := false
    pendingFetch := none
    initDone := true
    hasSetLoadingFalse := true }

/-- The state left by `initAuth`'s no-session path: loading over and the
component marked initialized, but the loading latch (set only by
`fetchProfile`'s finally block or by the safety timeout) still unset. -/
def preLatchState : AuthState :=
  { initialAuthState with loading := false, initDone := true }

/-! ## Shared lemmas -/

/-- The catch block only touches `profile` and `error`. -/
theorem fetchCatch_frame (s : AuthState) (e : StoreError) :
    (fetchCatch s e).1.loading = s.loading ∧
    (fetchCatch s e).1.isFetching = s.isFetching ∧
    (fetchCatch s e).1.pendingFetch = s.pendingFetch ∧
    (fetchCatch s e).1.initDone = s.initDone ∧
    (fetchCatch s e).1.hasSetLoadingFalse = s.hasSetLoadingFalse ∧
    (fetchCatch s e).1.user = s.user ∧
    (fetchCatch s e).1.session = s.session := by
  unfold fetchCatch
  split <;> exact ⟨rfl, rfl, rfl, rfl, rfl, rfl, rfl⟩

/-- The try/catch body only touches `profile` and `error`. -/
theorem fetchBody_frame (s : AuthState) (silent : Bool) (r1 r2 : StoreResult) :
    (fetchBody s silent r1 r2).state.loading = s.loading ∧
    (fetchBody s silent r1 r2).state.isFetching = s.isFetching ∧
    (fetchBody s silent r1 r2).state.pendingFetch = s.pendingFetch ∧
    (fetchBody s silent r1 r2).state.initDone = s.initDone ∧
    (fetchBody s silent r1 r2).state.hasSetLoadingFalse = s.hasSetLoadingFalse ∧
    (fetchBody s silent r1 r2).state.user = s.user ∧
    (fetchBody s silent r1 r2).state.session = s.session := by
  rcases r1 with p | e
  · exact ⟨rfl, rfl, rfl, rfl, rfl, rfl, rfl⟩
  · cases hc : (e.code == "PGRST116") <;> cases silent <;> rcases r2 with q | e2 <;>
      simp [fetchBody, hc, fetchCatch_frame]

/-- Effect of the finally block on each field of the state, and the replay
request it emits. -/
theorem fetchFinally_frame (s : AuthState) :
    (fetchFinally s).1.isFetching = false ∧
    (fetchFinally s).1.profile = s.profile ∧
    (fetchFinally s).1.error = s.error ∧
    (fetchFinally s).1.user = s.user ∧
    (fetchFinally s).1.session = s.session ∧
    (fetchFinally s).1.pendingFetch = none ∧
    (fetchFinally s).1.loading = (if s.hasSetLoadingFalse then s.loading else false) ∧
    (fetchFinally s).1.hasSetLoadingFalse = true ∧
    (fetchFinally s).1.initDone = (if s.hasSetLoadingFalse then s.initDone else true) ∧
    (fetchFinally s).2 = s.pendingFetch := by
  cases hb : s.hasSetLoadingFalse <;> cases hq : s.pendingFetch <;>
    simp [fetchFinally, hb, hq]

/-- A non-silent call on an idle component always proceeds to the query. -/
theorem fetchEnter_proceed (s : AuthState) (uid : String)
    (hf : s.isFetching = false) :
    fetchEnter s uid false = ({ s with isFetching := true }, FetchEntry.proceed) := by
  simp [fetchEnter, hf]

/-- Events delivered to a not-yet-initialized component change nothing. -/
theorem handleEvents_noop_of_not_initDone
    (evs : List (AuthEvent × Option Session)) (s : AuthState)
    (h : s.initDone = false) : handleEvents s evs = s := by
  induction evs with
  | nil => rfl
  | cons ev rest ih =>
    have hstep : (handleAuthEvent s ev.1 ev.2).1 = s := by
      simp [handleAuthEvent, h]
    show handleEvents (handleAuthEvent s ev.1 ev.2).1 rest = s
    rw [hstep]
    exact ih

/-! ## Claim theorems -/

/-- C8. The permission predicates are pure functions of the current profile
and user: `hasPermission roles` is `false` on a null profile and is `true`
exactly when the profile's role is a member of `roles`; `canEditOwnContent
authorId` is `false` on a null user and is `true` exactly when the user's id
equals `authorId`. -/
theorem permission_predicates_pure (roles : List UserRole) (p : Profile)
    (u : AuthUser) (authorId : String) :
    hasPermission none roles = false ∧
    (hasPermission (some p) roles = true ↔ p.role ∈ roles) ∧
    canEditOwnContent none authorId = false ∧
    (canEditOwnContent (some u) authorId = true ↔ u.id = authorId) := by
  refine ⟨rfl, ?_, rfl, ?_⟩
  · simp [hasPermission]
  · simp [canEditOwnContent]

/-- C10. With no current user, `refreshProfile` requests no Profile Store
fetch and leaves the whole state tuple unchanged. -/
theorem refreshProfile_noop_of_no_user (s : AuthState) (h : s.user = none) :
    refreshProfile s = (s, none) := by
  simp [refreshProfile, h]

/-- Witness for C10 at the mount state. -/
theorem refreshProfile_noop_of_no_user_witness :
    refreshProfile initialAuthState = (initialAuthState, none) :=
  refreshProfile_noop_of_no_user initialAuthState rfl

/-- C2. In an initialized state, a `TOKEN_REFRESHED` event carrying a session
updates `session` and `user`, leaves `profile` exactly as it was immediately
before the event, and triggers no profile fetch. -/
theorem token_refreshed_preserves_profile (s : AuthState) (sn : Session)
    (h : s.initDone = true) :
    (handleAuthEvent s AuthEvent.TOKEN_REFRESHED (some sn)).1.profile = s.profile ∧
    (handleAuthEvent s AuthEvent.TOKEN_REFRESHED (some sn)).1.session = some sn ∧
    (handleAuthEvent s AuthEvent.TOKEN_REFRESHED (some sn)).1.user = some sn.user ∧
    (handleAuthEvent s AuthEvent.TOKEN_REFRESHED (some sn)).2 = none := by
  simp [handleAuthEvent, h]

/-- Witness for C2 at the authenticated sample state. -/
theorem token_refreshed_preserves_profile_witness :
    (handleAuthEvent authedState AuthEvent.TOKEN_REFRESHED
        (some sampleSession)).1.profile = authedState.profile ∧
    (handleAuthEvent authedState AuthEvent.TOKEN_REFRESHED
        (some sampleSession)).2 = none := by
  have h := token_refreshed_preserves_profile authedState sampleSession rfl
  exact ⟨h.1, h.2.2.2⟩

/-- C3. Any sequence of `onSessionChange` events delivered before
initialization has completed leaves the state unchanged, so running
`initAuth` after such events produces exactly the state `initAuth` alone
produces. -/
theorem early_events_are_noops (s : AuthState)
    (evs : List (AuthEvent × Option Session)) (res : SessionResult)
    (resp retryResp : StoreResult) (h : s.initDone = false) :
    handleEvents s evs = s ∧
    initAuth (handleEvents s evs) res resp retryResp =
      initAuth s res resp retryResp := by
  have hh := handleEvents_noop_of_not_initDone evs s h
  exact ⟨hh, by rw [hh]⟩

/-- Witness for C3: a `SIGNED_IN` and a `SIGNED_OUT` delivered at the mount
state are both no-ops. -/
theorem early_events_are_noops_witness :
    handleEvents initialAuthState
        [(AuthEvent.SIGNED_IN, some sampleSession),
         (AuthEvent.SIGNED_OUT, none)] = initialAuthState :=
  (early_events_are_noops initialAuthState
    [(AuthEvent.SIGNED_IN, some sampleSession), (AuthEvent.SIGNED_OUT, none)]
    (SessionResult.ok none) (StoreResult.ok sampleProfile)
    (StoreResult.ok sampleProfile) rfl).1

/-- C1 counterexample. From the authenticated sample state, a `signOut`
whose Credential Backend call reports an error re-throws before any state is
cleared: `user`, `profile` and `session` all remain non-null, refuting the
claim that the locals are null after `signOut` throws. -/
theorem signOut_throw_keeps_state :
    (signOut authedState (some netErr)).2 = some netErr ∧
    (signOut authedState (some netErr)).1.user ≠ none ∧
    (signOut authedState (some netErr)).1.profile ≠ none ∧
    (signOut authedState (some netErr)).1.session ≠ none := by
  refine ⟨rfl, ?_, ?_, ?_⟩ <;> simp [signOut, authedState]

/-- C5 counterexample. A silent (queued-replay) `fetchProfile` call for which
the Profile Store reports not-found issues no retry: one query, no retry
delay — refuting the claim that every `loadProfile` call retries once on
not-found.  (The retry oracle would have succeeded, yet the profile is left
at its old value.) -/
theorem silent_replay_skips_retry :
    (runFetch authedState "user-77" true (StoreResult.fail notFoundErr)
        (StoreResult.ok sampleProfile)).queries = 1 ∧
    (runFetch authedState "user-77" true (StoreResult.fail notFoundErr)
        (StoreResult.ok sampleProfile)).retryDelayMs = none ∧
    (runFetch authedState "user-77" true (StoreResult.fail notFoundErr)
        (StoreResult.ok sampleProfile)).state.profile = some sampleProfile := by
  refine ⟨rfl, rfl, rfl⟩

/-- C5 (amended). A non-silent `loadProfile` call on an idle component for
which the Profile Store reports not-found waits the fixed 1000 ms delay and
retries exactly once (two queries in total); if the retry finds the record
the profile is set to it, and if the retry also fails the original not-found
error is surfaced in the `error` field while the component still ends
non-loading with the fetch flag lowered.  Silent queued replays do not
retry. -/
theorem not_found_retry_once_non_silent (s : AuthState) (uid : String)
    (retryResp : StoreResult) (hf : s.isFetching = false)
    (hl : s.hasSetLoadingFalse = false ∨ s.loading = false) :
    (runFetch s uid false (StoreResult.fail notFoundErr) retryResp).queries = 2 ∧
    (runFetch s uid false (StoreResult.fail notFoundErr)
        retryResp).retryDelayMs = some 1000 ∧
    (∀ p, retryResp = StoreResult.ok p →
      (runFetch s uid false (StoreResult.fail notFoundErr)
          retryResp).state.profile = some p) ∧
    (∀ e2, retryResp = StoreResult.fail e2 →
      (runFetch s uid false (StoreResult.fail notFoundErr)
          retryResp).state.error = some notFoundErr) ∧
    (runFetch s uid false (StoreResult.fail notFoundErr)
        retryResp).state.loading = false ∧
    (runFetch s uid false (StoreResult.fail notFoundErr)
        retryResp).state.isFetching = false := by
  rcases hl with hl | hl <;>
    rcases retryResp with q | e2 <;>
      cases hp : s.profile <;> cases hq : s.pendingFetch <;>
        cases hb : s.hasSetLoadingFalse <;>
          simp_all [runFetch, fetchEnter, fetchBody, fetchCatch, fetchFinally,
            notFoundErr]

/-- Witness for C5 (amended): from the mount state, a not-found first query
followed by a successful retry populates the profile with two queries. -/
theorem not_found_retry_once_non_silent_witness :
    (runFetch initialAuthState "user-42" false (StoreResult.fail notFoundErr)
        (StoreResult.ok sampleProfile)).queries = 2 ∧
    (runFetch initialAuthState "user-42" false (StoreResult.fail notFoundErr)
        (StoreResult.ok sampleProfile)).state.profile = some sampleProfile := by
  have h := not_found_retry_once_non_silent initialAuthState "user-42"
    (StoreResult.ok sampleProfile) rfl (Or.inl rfl)
  exact ⟨h.1, h.2.2.1 sampleProfile rfl⟩

/-- C6. When a `loadProfile` call on an idle component fails with a profile
value previously held, the profile keeps its previous value, the error is
surfaced in the `error` field, a 5000 ms timer to clear it is scheduled, and
firing that timer resets `error` to `null` while still keeping the
profile. -/
theorem error_keeps_profile_and_schedules_clear (s : AuthState) (uid : String)
    (p : Profile) (e : StoreError) (retryResp : StoreResult)
    (hp : s.profile = some p) (hf : s.isFetching = false)
    (hretry : e.code = "PGRST116" → ∃ e2, retryResp = StoreResult.fail e2) :
    (runFetch s uid false (StoreResult.fail e) retryResp).state.profile = some p ∧
    (runFetch s uid false (StoreResult.fail e) retryResp).state.error = some e ∧
    (runFetch s uid false (StoreResult.fail e)
        retryResp).errorClearDelayMs = some 5000 ∧
    (clearError (runFetch s uid false (StoreResult.fail e)
        retryResp).state).error = none ∧
    (clearError (runFetch s uid false (StoreResult.fail e)
        retryResp).state).profile = some p := by
  by_cases hc : e.code = "PGRST116"
  · obtain ⟨e2, he2⟩ := hretry hc
    subst he2
    cases hq : s.pendingFetch <;> cases hb : s.hasSetLoadingFalse <;>
      simp_all [runFetch, fetchEnter, fetchBody, fetchCatch, fetchFinally,
        clearError]
  · rcases retryResp with q | e2 <;>
      cases hq : s.pendingFetch <;> cases hb : s.hasSetLoadingFalse <;>
        simp_all [runFetch, fetchEnter, fetchBody, fetchCatch, fetchFinally,
          clearError]

/-- Witness for C6: a network failure while `sampleProfile` is held keeps the
profile and surfaces then clears the error. -/
theorem error_keeps_profile_and_schedules_clear_witness :
    (runFetch authedState "user-42" false (StoreResult.fail netErr)
        (StoreResult.fail netErr)).state.profile = some sampleProfile ∧
    (runFetch authedState "user-42" false (StoreResult.fail netErr)
        (StoreResult.fail netErr)).state.error = some netErr := by
  have h := error_keeps_profile_and_schedules_clear authedState "user-42"
    sampleProfile netErr (StoreResult.fail netErr) rfl rfl
    (fun hcode => absurd hcode (by decide))
  exact ⟨h.1, h.2.1⟩

/-- The event handler never raises `loading`. -/
theorem handleAuthEvent_loading (s : AuthState) (e : AuthEvent)
    (sess : Option Session) (h : s.loading = false) :
    (handleAuthEvent s e sess).1.loading = false := by
  cases hi : s.initDone <;> rcases sess with _ | sn <;> cases e <;>
    simp_all [handleAuthEvent]

/-- The entry section of `fetchProfile` never raises `loading`. -/
theorem stepCall_loading (c : FetchConfig) (uid : String) (silent : Bool)
    (h : c.st.loading = false) : (stepCall c uid silent).st.loading = false := by
  cases hf : c.st.isFetching
  · cases silent <;> cases hsl : c.st.profile.any (fun p => p.id == uid) <;>
      simp_all [stepCall, fetchEnter]
  · simp_all [stepCall, fetchEnter]

/-- A store-response arrival (body plus finally) never raises `loading`. -/
theorem stepComplete_loading (c : FetchConfig) (r1 r2 : StoreResult)
    (h : c.st.loading = false) :
    (stepComplete c r1 r2).1.st.loading = false := by
  cases hin : c.inFlight with
  | nil => simpa [stepComplete, hin] using h
  | cons t rest =>
    have hb := (fetchBody_frame c.st t.silent r1 r2).1
    have hfin :=
      (fetchFinally_frame (fetchBody c.st t.silent r1 r2).state).2.2.2.2.2.2.1
    simp [stepComplete, hin, hfin, hb, h]

/-- No scheduler step ever raises `loading`. -/
theorem applyStep_loading (c : FetchConfig) (stp : SysStep)
    (h : c.st.loading = false) : (applyStep c stp).st.loading = false := by
  cases stp with
  | ev e sess => exact handleAuthEvent_loading c.st e sess h
  | fetchCall uid silent => exact stepCall_loading c uid silent h
  | fetchDone r1 r2 => exact stepComplete_loading c r1 r2 h
  | timeout =>
      cases hb : c.st.hasSetLoadingFalse <;> simp_all [applyStep, safetyTimeout]
  | clearErr => exact h
  | signOutStep e => rcases e with _ | e <;> simp_all [applyStep, signOut]
  | refresh =>
      cases hu : c.st.user with
      | none => simpa [applyStep, hu] using h
      | some u => simpa [applyStep, hu] using stepCall_loading c u.id false h

/-- C7. Once `loading` is `false`, no sequence of scheduler steps — auth
events, profile fetches and their completions (including the not-found retry
and queued replays), the safety timeout, error clears, sign-outs, or even
explicit `refreshProfile` calls — ever sets it back to `true`. -/
theorem loading_never_rebounds (c : FetchConfig) (steps : List SysStep)
    (h : c.st.loading = false) :
    (steps.foldl applyStep c).st.loading = false := by
  induction steps generalizing c with
  | nil => exact h
  | cons stp rest ih => exact ih _ (applyStep_loading c stp h)

/-- Witness for C7: a refresh, a failing completion, the timeout and a token
refresh leave `loading` at `false` from the settled state. -/
theorem loading_never_rebounds_witness :
    (([SysStep.refresh,
       SysStep.fetchDone (StoreResult.fail netErr) (StoreResult.fail netErr),
       SysStep.timeout,
       SysStep.ev AuthEvent.TOKEN_REFRESHED (some sampleSession)]).foldl
        applyStep ⟨authedState, []⟩).st.loading = false :=
  loading_never_rebounds ⟨authedState, []⟩
    [SysStep.refresh,
     SysStep.fetchDone (StoreResult.fail netErr) (StoreResult.fail netErr),
     SysStep.timeout,
     SysStep.ev AuthEvent.TOKEN_REFRESHED (some sampleSession)] rfl

/-- The event handler never touches the in-flight flag. -/
theorem handleAuthEvent_isFetching (s : AuthState) (e : AuthEvent)
    (sess : Option Session) :
    (handleAuthEvent s e sess).1.isFetching = s.isFetching := by
  cases hi : s.initDone <;> rcases sess with _ | sn <;> cases e <;>
    simp [handleAuthEvent, hi]

/-- Invoking `fetchProfile` preserves the single-flight invariant. -/
theorem stepCall_inv (c : FetchConfig) (uid : String) (silent : Bool)
    (h1 : c.inFlight.length ≤ 1)
    (h2 : c.st.isFetching = true ↔ c.inFlight ≠ []) :
    (stepCall c uid silent).inFlight.length ≤ 1 ∧
    ((stepCall c uid silent).st.isFetching = true ↔
      (stepCall c uid silent).inFlight ≠ []) := by
  cases hf : c.st.isFetching
  · have hemp : c.inFlight = [] := by
      by_contra hne
      have hx := h2.mpr hne
      rw [hf] at hx
      exact Bool.false_ne_true hx
    cases silent <;> cases hsl : c.st.profile.any (fun p => p.id == uid) <;>
      simp_all [stepCall, fetchEnter]
  · simp_all [stepCall, fetchEnter]

/-- A store-response arrival preserves the single-flight invariant. -/
theorem stepComplete_inv (c : FetchConfig) (r1 r2 : StoreResult)
    (h1 : c.inFlight.length ≤ 1)
    (h2 : c.st.isFetching = true ↔ c.inFlight ≠ []) :
    (stepComplete c r1 r2).1.inFlight.length ≤ 1 ∧
    ((stepComplete c r1 r2).1.st.isFetching = true ↔
      (stepComplete c r1 r2).1.inFlight ≠ []) := by
  cases hin : c.inFlight with
  | nil =>
    have hff : c.st.isFetching = false := by
      cases hx : c.st.isFetching
      · rfl
      · exact absurd (h2.mp hx) (by simp [hin])
    simp [stepComplete, hin, hff]
  | cons t rest =>
    have hlen : rest.length = 0 := by
      rw [hin] at h1
      simp only [List.length_cons] at h1
      omega
    have hrest : rest = [] := List.length_eq_zero.mp hlen
    subst hrest
    have hfin := (fetchFinally_frame (fetchBody c.st t.silent r1 r2).state).1
    simp [stepComplete, hin, hfin]

/-- Any scheduler step other than sign-out preserves the single-flight
invariant (sign-out resets `isFetching` while a query may still be
outstanding, breaking it). -/
theorem applyStep_inv (c : FetchConfig) (stp : SysStep)
    (hstp : stp.isSignOut = false)
    (h1 : c.inFlight.length ≤ 1)
    (h2 : c.st.isFetching = true ↔ c.inFlight ≠ []) :
    (applyStep c stp).inFlight.length ≤ 1 ∧
    ((applyStep c stp).st.isFetching = true ↔
      (applyStep c stp).inFlight ≠ []) := by
  cases stp with
  | ev e sess =>
    refine ⟨h1, ?_⟩
    show (handleAuthEvent c.st e sess).1.isFetching = true ↔ c.inFlight ≠ []
    rw [handleAuthEvent_isFetching]
    exact h2
  | fetchCall uid silent => exact stepCall_inv c uid silent h1 h2
  | fetchDone r1 r2 => exact stepComplete_inv c r1 r2 h1 h2
  | timeout =>
    refine ⟨h1, ?_⟩
    show (safetyTimeout c.st).isFetching = true ↔ c.inFlight ≠ []
    have hsf : (safetyTimeout c.st).isFetching = c.st.isFetching := by
      unfold safetyTimeout
      split <;> rfl
    rw [hsf]
    exact h2
  | clearErr => exact ⟨h1, h2⟩
  | signOutStep e => exact absurd hstp (by simp [SysStep.isSignOut])
  | refresh =>
    cases hu : c.st.user with
    | none =>
      have hred : applyStep c SysStep.refresh = c := by simp [applyStep, hu]
      rw [hred]
      exact ⟨h1, h2⟩
    | some u =>
      have hred : applyStep c SysStep.refresh = stepCall c u.id false := by
        simp [applyStep, hu]
      rw [hred]
      exact stepCall_inv c u.id false h1 h2

/-- The single-flight invariant holds along any sign-out-free step
sequence. -/
theorem foldl_inv (steps : List SysStep) (c : FetchConfig)
    (hs : ∀ stp ∈ steps, stp.isSignOut = false)
    (h1 : c.inFlight.length ≤ 1)
    (h2 : c.st.isFetching = true ↔ c.inFlight ≠ []) :
    (steps.foldl applyStep c).inFlight.length ≤ 1 ∧
    ((steps.foldl applyStep c).st.isFetching = true ↔
      (steps.foldl applyStep c).inFlight ≠ []) := by
  induction steps generalizing c with
  | nil => exact ⟨h1, h2⟩
  | cons stp rest ih =>
    have hstep := applyStep_inv c stp (hs stp (List.mem_cons_self stp rest)) h1 h2
    exact ih _ (fun s hm => hs s (List.mem_cons_of_mem stp hm)) hstep.1 hstep.2

/-- C4 counterexample. Using the full scheduler, the trace fetch-call →
successful sign-out → safety timeout → `SIGNED_IN` → fetch-call, starting
from the no-session-init state (loading latch unset), reaches a
configuration with TWO fetches in flight: the sign-out resets the in-flight
flag while the first store query is still outstanding (line 417), the
pre-latch safety timeout re-arms the initialization guard (line 147), the
`SIGNED_IN` is therefore processed, and the second `fetchProfile` proceeds
instead of queueing — refuting "in every reachable state at most one
profile fetch is in flight". -/
theorem concurrent_fetches_after_signout :
    (([SysStep.fetchCall "user-42" false]).foldl applyStep
      ⟨preLatchState, []⟩).st.isFetching = true ∧
    (([SysStep.fetchCall "user-42" false,
       SysStep.signOutStep none]).foldl applyStep
      ⟨preLatchState, []⟩).st.isFetching = false ∧
    (([SysStep.fetchCall "user-42" false,
       SysStep.signOutStep none]).foldl applyStep
      ⟨preLatchState, []⟩).inFlight.length = 1 ∧
    (([SysStep.fetchCall "user-42" false,
       SysStep.signOutStep none,
       SysStep.timeout,
       SysStep.ev AuthEvent.SIGNED_IN (some sampleSession),
       SysStep.fetchCall "user-42" false]).foldl applyStep
      ⟨preLatchState, []⟩).inFlight.length = 2 :=
  ⟨rfl, rfl, rfl, rfl⟩

/-- C4 (amended). Along every step sequence from the mount state that
contains no sign-out — event deliveries, `fetchProfile` calls and their
completions, the safety timeout, error clears, refreshes — at most one
profile fetch is in flight and the `isFetching` flag tracks it exactly;
a `fetchProfile` call made while a fetch is in flight only records the
requested id in the pending slot (overwriting any older queued id, issuing
nothing); and when the in-flight fetch completes with an id queued, exactly
one replay is issued, for that latest queued id, and the queue is emptied.
(A successful sign-out during a fetch resets the guard flag without
cancelling the outstanding query, after which a second concurrent fetch is
reachable, as the counterexample shows.) -/
theorem fetch_guard_single_flight :
    (∀ steps : List SysStep, (∀ stp ∈ steps, stp.isSignOut = false) →
      ((steps.foldl applyStep ⟨initialAuthState, []⟩).inFlight.length ≤ 1 ∧
       ((steps.foldl applyStep ⟨initialAuthState, []⟩).st.isFetching = true ↔
         (steps.foldl applyStep ⟨initialAuthState, []⟩).inFlight ≠ []))) ∧
    (∀ c uid silent, c.st.isFetching = true →
      stepCall c uid silent =
        ⟨{ c.st with pendingFetch := some uid }, c.inFlight⟩) ∧
    (∀ c t r1 r2 uid, c.inFlight = [t] → c.st.pendingFetch = some uid →
      (stepComplete c r1 r2).2 = some uid ∧
      (stepComplete c r1 r2).1.st.pendingFetch = none ∧
      (stepComplete c r1 r2).1.inFlight = []) := by
  refine ⟨?_, ?_, ?_⟩
  · intro steps hs
    exact foldl_inv steps ⟨initialAuthState, []⟩ hs (by simp) (by simp [initialAuthState])
  · intro c uid silent hf
    simp [stepCall, fetchEnter, hf]
  · intro c t r1 r2 uid hin hp
    have hbp := (fetchBody_frame c.st t.silent r1 r2).2.2.1
    have hrep :=
      (fetchFinally_frame (fetchBody c.st t.silent r1 r2).state).2.2.2.2.2.2.2.2.2
    have hfp :=
      (fetchFinally_frame (fetchBody c.st t.silent r1 r2).state).2.2.2.2.2.1
    refine ⟨?_, ?_, ?_⟩ <;> simp [stepComplete, hin, hrep, hfp, hbp, hp]

/-- A configuration with one fetch in flight for `sampleUser`. -/
def busyConfig : FetchConfig := stepCall ⟨authedState, []⟩ "user-42" false

/-- The busy configuration after a second, superseding call for `otherUser`
has been queued. -/
def queuedConfig : FetchConfig := stepCall busyConfig "user-77" true

/-- Witness for C4 (amended): a sign-out-free sequence of two calls and a
completion keeps at most one fetch in flight; a call during the in-flight
fetch queues `user-77`; and the completion replays exactly that id and
empties the in-flight set. -/
theorem fetch_guard_single_flight_witness :
    (([SysStep.fetchCall "user-42" false,
       SysStep.fetchCall "user-77" true,
       SysStep.fetchDone (StoreResult.ok sampleProfile)
         (StoreResult.ok sampleProfile)]).foldl applyStep
      ⟨initialAuthState, []⟩).inFlight.length ≤ 1 ∧
    (stepCall busyConfig "user-77" true).st.pendingFetch = some "user-77" ∧
    (stepComplete queuedConfig (StoreResult.ok sampleProfile)
        (StoreResult.ok sampleProfile)).2 = some "user-77" ∧
    (stepComplete queuedConfig (StoreResult.ok sampleProfile)
        (StoreResult.ok sampleProfile)).1.inFlight = [] := by
  have h1 := fetch_guard_single_flight.1
    [SysStep.fetchCall "user-42" false,
     SysStep.fetchCall "user-77" true,
     SysStep.fetchDone (StoreResult.ok sampleProfile)
       (StoreResult.ok sampleProfile)]
    (by decide)
  have h2 := fetch_guard_single_flight.2.1 busyConfig "user-77" true rfl
  have h3 := fetch_guard_single_flight.2.2 queuedConfig ⟨"user-42", false⟩
    (StoreResult.ok sampleProfile) (StoreResult.ok sampleProfile) "user-77"
    rfl rfl
  exact ⟨h1.1, by rw [h2], h3.1, h3.2.2⟩

/-- Every scheduler step keeps the initialization guard down once the
loading latch is set. -/
theorem applyStep_guard_down (c : FetchConfig) (stp : SysStep)
    (h1 : c.st.initDone = false) (h2 : c.st.hasSetLoadingFalse = true) :
    (applyStep c stp).st.initDone = false ∧
    (applyStep c stp).st.hasSetLoadingFalse = true := by
  cases stp with
  | ev e sess => simp [applyStep, handleAuthEvent, h1, h2]
  | fetchCall uid silent =>
      cases hf : c.st.isFetching
      · cases silent <;> cases hsl : c.st.profile.any (fun p => p.id == uid) <;>
          simp_all [applyStep, stepCall, fetchEnter]
      · simp_all [applyStep, stepCall, fetchEnter]
  | fetchDone r1 r2 =>
      cases hin : c.inFlight with
      | nil => simp [applyStep, stepComplete, hin, h1, h2]
      | cons t rest =>
        have hbI := (fetchBody_frame c.st t.silent r1 r2).2.2.2.1
        have hbH := (fetchBody_frame c.st t.silent r1 r2).2.2.2.2.1
        have hfI :=
          (fetchFinally_frame (fetchBody c.st t.silent r1 r2).state).2.2.2.2.2.2.2.2.1
        have hfH :=
          (fetchFinally_frame (fetchBody c.st t.silent r1 r2).state).2.2.2.2.2.2.2.1
        simp [applyStep, stepComplete, hin, hfI, hfH, hbI, hbH, h1, h2]
  | timeout => simp [applyStep, safetyTimeout, h1, h2]
  | clearErr => exact ⟨h1, h2⟩
  | signOutStep e => rcases e with _ | e <;> simp [applyStep, signOut, h1, h2]
  | refresh =>
      cases hu : c.st.user with
      | none => simp [applyStep, hu, h1, h2]
      | some u =>
        cases hf : c.st.isFetching <;> simp_all [applyStep, stepCall, fetchEnter]

/-- With the loading latch set, a state whose initialization guard is down
keeps it down under any sequence of scheduler steps. -/
theorem guard_stays_down (steps : List SysStep) (c : FetchConfig)
    (h1 : c.st.initDone = false) (h2 : c.st.hasSetLoadingFalse = true) :
    (steps.foldl applyStep c).st.initDone = false := by
  induction steps generalizing c with
  | nil => exact h1
  | cons stp rest ih =>
    exact ih _ (applyStep_guard_down c stp h1 h2).1
      (applyStep_guard_down c stp h1 h2).2

/-- C9 counterexample. A successful `signOut` from `preLatchState` does reset
the initialization guard, but the pending safety timeout then sets it back
to `true` (the latch was never set), after which a later `SIGNED_IN` is
processed rather than suppressed: it changes `user` from `none` to
`sampleUser` and requests a profile fetch — refuting the claim that the
guard is never set to `true` again and that every subsequent event is
suppressed. -/
theorem post_signout_event_processed_after_timeout :
    (signOut preLatchState none).1.initDone = false ∧
    (signOut preLatchState none).1.user = none ∧
    (safetyTimeout (signOut preLatchState none).1).initDone = true ∧
    (handleAuthEvent (safetyTimeout (signOut preLatchState none).1)
        AuthEvent.SIGNED_IN (some sampleSession)).1.user = some sampleUser ∧
    (handleAuthEvent (safetyTimeout (signOut preLatchState none).1)
        AuthEvent.SIGNED_IN (some sampleSession)).2 = some "user-42" :=
  ⟨rfl, rfl, rfl, rfl, rfl⟩

/-- C9 (amended). Processing a `SIGNED_OUT` event, or a successful
`signOut`, resets the initialization guard to `false`; provided the startup
loading latch has been set, no subsequent scheduler step sets the guard back
to `true`; and while the guard is down every `onSessionChange` event is
suppressed, leaving the whole state — `user`, `profile` and `session`
included — unchanged and requesting no fetch.  (If the latch is still
unset, the safety timeout or a completing fetch can re-arm the guard, as the
counterexample shows.) -/
theorem signout_resets_guard_and_suppresses (s : AuthState) (e2 : AuthEvent)
    (sess : Option Session) (c : FetchConfig) (steps : List SysStep) :
    (s.initDone = true →
      (handleAuthEvent s AuthEvent.SIGNED_OUT sess).1.initDone = false) ∧
    ((signOut s none).1.initDone = false) ∧
    (c.st.initDone = false → c.st.hasSetLoadingFalse = true →
      (steps.foldl applyStep c).st.initDone = false) ∧
    (s.initDone = false → handleAuthEvent s e2 sess = (s, none)) := by
  refine ⟨?_, rfl, fun h1 h2 => guard_stays_down steps c h1 h2, ?_⟩
  · intro h
    rcases sess with _ | sn <;> simp [handleAuthEvent, h]
  · intro h
    simp [handleAuthEvent, h]

/-- The state after a successful `signOut` from the settled authenticated
state: guard down, loading latch set. -/
def postSignOutState : AuthState := (signOut authedState none).1

/-- Witness for C9 (amended): the guard drops on `SIGNED_OUT`, stays down
across the timeout and a `SIGNED_IN`, and the `SIGNED_IN` is suppressed. -/
theorem signout_resets_guard_and_suppresses_witness :
    (handleAuthEvent authedState AuthEvent.SIGNED_OUT none).1.initDone = false ∧
    (([SysStep.timeout,
       SysStep.ev AuthEvent.SIGNED_IN (some sampleSession)]).foldl applyStep
        ⟨postSignOutState, []⟩).st.initDone = false ∧
    handleAuthEvent postSignOutState AuthEvent.SIGNED_IN (some sampleSession)
      = (postSignOutState, none) := by
  have ha := signout_resets_guard_and_suppresses authedState
    AuthEvent.SIGNED_IN none ⟨postSignOutState, []⟩ []
  have h := signout_resets_guard_and_suppresses postSignOutState
    AuthEvent.SIGNED_IN (some sampleSession) ⟨postSignOutState, []⟩
    [SysStep.timeout, SysStep.ev AuthEvent.SIGNED_IN (some sampleSession)]
  exact ⟨ha.1 rfl, h.2.2.1 rfl rfl, h.2.2.2 rfl⟩

/-- C1 (amended). When the Credential Backend's sign-out call succeeds,
`signOut` clears `user`, `profile` and `session` and resets the `isFetching`
and initialization guards; when the backend call reports an error, `signOut`
throws that error first and leaves the local state entirely unchanged. -/
theorem signOut_clears_state_on_success (s : AuthState) (e : StoreError) :
    signOut s none =
      ({ s with user := none, profile := none, session := none,
                isFetching := false, initDone := false }, none) ∧
    signOut s (some e) = (s, some e) :=
  ⟨rfl, rfl⟩

end Auth
